import Mathlib

/-!
Shallow embedding of the gameplay simulation core of `sforce`
(a vertically-scrolling arcade shooter written in Rust on top of bevy).

Rust `f32` quantities are modelled as exact rationals (`ℚ`): every
operation the embedded code performs on them (addition, subtraction,
multiplication, `max`/`min`/`clamp`, comparisons, `ceil`) is
structure-preserving under this translation.  Rust `u8`/`u32` counters
are modelled as `Nat` (their saturating subtraction is `Nat`
subtraction), `i32` health as `Int`.  Bevy entity ids are plain `Nat`
tags; the deferred `Commands` despawn queue of a single system run is
modelled explicitly as a list of queued ids that is applied when the
system finishes.
-/

namespace SForce

/-! ### Difficulty model — `src/game/config.rs` -/

inductive Difficulty
  | Easy
  | Normal
  | Hard
deriving DecidableEq, Repr

def Difficulty.spawn_interval_factor : Difficulty → ℚ
  | .Easy => mkRat 5 4
  | .Normal => 1
  | .Hard => mkRat 4 5

def Difficulty.enemy_health_factor : Difficulty → ℚ
  | .Easy => mkRat 9 10
  | .Normal => 1
  | .Hard => mkRat 23 20

def Difficulty.enemy_bullet_factor : Difficulty → ℚ
  | .Easy => mkRat 9 10
  | .Normal => 1
  | .Hard => mkRat 6 5

/-- `GameSettings` — the part the simulation core reads. -/
structure GameSettings where
  difficulty : Difficulty
deriving DecidableEq, Repr

/-! ### Enemy kinds — `src/game/enemies.rs` -/

inductive EnemyKind
  | Grunt
  | Sine
  | ZigZag
  | Tank
  | Chaser
  | Boss
deriving DecidableEq, Repr

def EnemyKind.health : EnemyKind → Int
  | .Grunt => 1
  | .Sine => 2
  | .ZigZag => 2
  | .Tank => 6
  | .Chaser => 3
  | .Boss => 200

def EnemyKind.score_value : EnemyKind → Nat
  | .Grunt => 100
  | .Sine => 150
  | .ZigZag => 200
  | .Tank => 350
  | .Chaser => 250
  | .Boss => 2000

/-- Health assigned by `spawn_enemies_from_events`
(`src/game/enemies.rs`): `((kind.health() as f32) * enemy_health_factor).ceil() as i32`.
Rust `f32::ceil` followed by the `i32` cast is the exact ceiling on
these (exactly representable) values. -/
def spawned_enemy_health (kind : EnemyKind) (difficulty : Difficulty) : Int :=
  ⌈(kind.health : ℚ) * difficulty.enemy_health_factor⌉

/-! ### Player state and the shared hit rule — `src/game/player.rs`,
`src/game/collisions.rs` -/

/-- `PLAYER_HIT_INVULNERABILITY = 1.6` seconds. -/
def PLAYER_HIT_INVULNERABILITY : ℚ := mkRat 8 5

structure PlayerStats where
  health : Nat
  max_health : Nat
  lives : Nat
  max_lives : Nat
deriving DecidableEq, Repr

structure PlayerDefense where
  invulnerability : ℚ
deriving DecidableEq, Repr

inductive AudioCue
  | Shoot
  | Hit
  | Explosion
  | Pickup
  | UiSelect
deriving DecidableEq, Repr

/-- The outcome of one call to `handle_player_hit`:
the updated stats and defense, whether `next_state` was set to
`AppState::GameOver`, the audio cues sent, whether a
`PlayerLifeLostEvent` was sent, and the returned `bool`. -/
structure HitOutcome where
  stats : PlayerStats
  defense : PlayerDefense
  gameOver : Bool
  cues : List AudioCue
  lifeLost : Bool
  accepted : Bool
deriving DecidableEq, Repr

/-- `handle_player_hit` — `src/game/collisions.rs` lines 188-232. -/
def handle_player_hit (stats : PlayerStats) (defense : PlayerDefense)
    (damage : Nat) : HitOutcome :=
  if 0 < defense.invulnerability then
    { stats := stats, defense := defense, gameOver := false,
      cues := [], lifeLost := false, accepted := false }
  else
    let dmg := max damage 1
    let health := stats.health - dmg
    if health = 0 then
      if 1 < stats.lives then
        { stats := { stats with health := stats.max_health, lives := stats.lives - 1 },
          defense := { invulnerability := PLAYER_HIT_INVULNERABILITY },
          gameOver := false, cues := [.Hit], lifeLost := true,
          accepted := true }
      else
        { stats := { stats with health := 0, lives := 0 },
          defense := { invulnerability := 0 },
          gameOver := true, cues := [.Hit], lifeLost := false,
          accepted := true }
    else
      { stats := { stats with health := health },
        defense := { invulnerability := PLAYER_HIT_INVULNERABILITY },
        gameOver := false, cues := [.Hit], lifeLost := false,
        accepted := true }

/-- `tick_player_invulnerability` — `src/game/player.rs` lines 391-398:
`invulnerability = (invulnerability - delta).max(0.0)`. -/
def tick_player_invulnerability (invulnerability delta : ℚ) : ℚ :=
  max (invulnerability - delta) 0

/-! ### Collision geometry — `src/game/collisions.rs` -/

structure Vec2q where
  x : ℚ
  y : ℚ
deriving DecidableEq, Repr

/-- `sprite_half_extents`: `sprite.custom_size.unwrap_or(Vec2::splat(32.0)) * 0.5`. -/
def sprite_half_extents (custom_size : Option Vec2q) : Vec2q :=
  match custom_size with
  | some s => ⟨s.x / 2, s.y / 2⟩
  | none => ⟨16, 16⟩

/-- `overlaps`: axis-aligned half-extent overlap test on both axes. -/
def overlaps (a_center a_half b_center b_half : Vec2q) : Prop :=
  |a_center.x - b_center.x| ≤ a_half.x + b_half.x ∧
    |a_center.y - b_center.y| ≤ a_half.y + b_half.y

instance (a_center a_half b_center b_half : Vec2q) :
    Decidable (overlaps a_center a_half b_center b_half) :=
  inferInstanceAs (Decidable (And _ _))

/-- The five power-up kinds of the storyboard-integrated variant, as
required by `src/game/spawn.rs` (its storyboard defaults and its
`Deserialize` impl name all five). -/
inductive PowerUpKind
  | Spread
  | Rapid
  | Shield
  | Health
  | Invincibility
deriving DecidableEq, Repr

/-! ### Player-bullet vs enemy pass — `src/game/collisions.rs` lines 34-92 -/

/-- One row of the enemy query visible to the collision passes:
entity id, the `Enemy` component, the optional `DropsPowerUp`
component, and the transform/sprite data the AABB test reads. -/
structure EnemyEnt where
  id : Nat
  kind : EnemyKind
  health : Int
  score : Nat
  damage : Nat
  drop : Option PowerUpKind
  center : Vec2q
  half : Vec2q
deriving DecidableEq, Repr

/-- One row of the player-bullet query. -/
structure BulletEnt where
  id : Nat
  center : Vec2q
  half : Vec2q
deriving DecidableEq, Repr

structure ExplosionEvent where
  position : Vec2q
  large : Bool
deriving DecidableEq, Repr

structure SpawnPowerUpEvent where
  position : Vec2q
  kind : PowerUpKind
deriving DecidableEq, Repr

/-- The `hits` vector: each bullet is paired with the FIRST enemy (in
query order) whose AABB overlaps it, then the inner loop breaks. -/
def computeHits (bullets : List BulletEnt) (enemies : List EnemyEnt) :
    List (Nat × Nat) :=
  bullets.filterMap fun b =>
    (enemies.find? fun e =>
        decide (overlaps e.center e.half b.center b.half)).map
      fun e => (b.id, e.id)

/-- Mutable state threaded through the hit-application loop.  Bevy
`Commands::despawn` is deferred: queued ids stay visible to
`enemies.get_mut` until the system finishes, so despawns are recorded
in queues and applied at the end of the pass. -/
structure ProjEnemyState where
  enemies : List EnemyEnt
  despawnedEnemies : List Nat
  despawnedBullets : List Nat
  score : Nat
  cues : List AudioCue
  explosions : List ExplosionEvent
  powerups : List SpawnPowerUpEvent
deriving DecidableEq, Repr

def applyHit (st : ProjEnemyState) (hit : Nat × Nat) : ProjEnemyState :=
  let st := { st with despawnedBullets := st.despawnedBullets ++ [hit.1] }
  match st.enemies.find? (fun e => e.id = hit.2) with
  | none => st
  | some e =>
    let health := e.health - 1
    let enemies := st.enemies.map fun o =>
      if o.id = hit.2 then { o with health := health } else o
    if health ≤ 0 then
      { st with
          enemies := enemies
          despawnedEnemies := st.despawnedEnemies ++ [hit.2]
          score := st.score + e.score
          cues := st.cues ++ [.Explosion]
          powerups := st.powerups ++
            (match e.drop with
             | some kind => [⟨e.center, kind⟩]
             | none => [])
          explosions := st.explosions ++
            [⟨e.center, decide (e.kind = .Tank ∨ e.kind = .Boss)⟩] }
    else
      { st with enemies := enemies }

/-- Result of one run of `projectile_enemy_collisions`, after the
deferred despawn commands have been flushed. -/
structure ProjEnemyOutcome where
  enemies : List EnemyEnt
  bullets : List BulletEnt
  score : Nat
  cues : List AudioCue
  explosions : List ExplosionEvent
  powerups : List SpawnPowerUpEvent
deriving DecidableEq, Repr

/-- `projectile_enemy_collisions` — `src/game/collisions.rs` lines 34-92. -/
def projectile_enemy_collisions (bullets : List BulletEnt)
    (enemies : List EnemyEnt) (score : Nat) : ProjEnemyOutcome :=
  let hits := computeHits bullets enemies
  let st : ProjEnemyState :=
    { enemies := enemies, despawnedEnemies := [], despawnedBullets := [],
      score := score, cues := [], explosions := [], powerups := [] }
  let fin := hits.foldl applyHit st
  { enemies := fin.enemies.filter fun e => ¬ fin.despawnedEnemies.contains e.id
    bullets := bullets.filter fun b => ¬ fin.despawnedBullets.contains b.id
    score := fin.score
    cues := fin.cues
    explosions := fin.explosions
    powerups := fin.powerups }

/-! ### Player-hit scan passes — `src/game/collisions.rs` lines 94-186 -/

/-- One row of the enemy-projectile query
(`EnemyProjectile` component plus transform/sprite data). -/
structure EnemyProjEnt where
  id : Nat
  damage : Nat
  center : Vec2q
  half : Vec2q
deriving DecidableEq, Repr

/-- Outcome of one of the two scans that call `handle_player_hit`:
the survivors of the scanned collection, the queued despawns (one
entry per `despawn_with_check`), and every side effect. -/
structure PlayerHitScanOutcome (α : Type) where
  stats : PlayerStats
  defense : PlayerDefense
  gameOver : Bool
  cues : List AudioCue
  lifeLost : Bool
  survivors : List α
  despawned : List Nat
  explosions : List ExplosionEvent
  powerups : List SpawnPowerUpEvent
deriving DecidableEq, Repr

/-- `player_enemy_collisions` — `src/game/collisions.rs` lines 94-143.
Scans enemies in iteration order; on the first overlapping enemy whose
hit is accepted it despawns that enemy, emits its drop and two
explosions, and breaks.  A rejected (invulnerable) overlap changes
nothing and the scan continues. -/
def player_enemy_collisions (player_center player_half : Vec2q)
    (stats : PlayerStats) (defense : PlayerDefense) :
    List EnemyEnt → PlayerHitScanOutcome EnemyEnt
  | [] =>
    { stats := stats, defense := defense, gameOver := false, cues := [],
      lifeLost := false, survivors := [], despawned := [],
      explosions := [], powerups := [] }
  | e :: rest =>
    if overlaps player_center player_half e.center e.half then
      let o := handle_player_hit stats defense e.damage
      if o.accepted then
        { stats := o.stats, defense := o.defense, gameOver := o.gameOver,
          cues := o.cues, lifeLost := o.lifeLost, survivors := rest,
          despawned := [e.id],
          explosions :=
            [⟨e.center, decide (e.kind = .Tank ∨ e.kind = .Boss)⟩,
             ⟨player_center, true⟩],
          powerups :=
            match e.drop with
            | some kind => [⟨e.center, kind⟩]
            | none => [] }
      else
        let r := player_enemy_collisions player_center player_half
          o.stats o.defense rest
        { r with survivors := e :: r.survivors }
    else
      let r := player_enemy_collisions player_center player_half
        stats defense rest
      { r with survivors := e :: r.survivors }

/-- `enemy_projectile_player_collisions` — `src/game/collisions.rs`
lines 145-186. -/
def enemy_projectile_player_collisions (player_center player_half : Vec2q)
    (stats : PlayerStats) (defense : PlayerDefense) :
    List EnemyProjEnt → PlayerHitScanOutcome EnemyProjEnt
  | [] =>
    { stats := stats, defense := defense, gameOver := false, cues := [],
      lifeLost := false, survivors := [], despawned := [],
      explosions := [], powerups := [] }
  | p :: rest =>
    if overlaps player_center player_half p.center p.half then
      let o := handle_player_hit stats defense p.damage
      if o.accepted then
        { stats := o.stats, defense := o.defense, gameOver := o.gameOver,
          cues := o.cues, lifeLost := o.lifeLost, survivors := rest,
          despawned := [p.id],
          explosions := [⟨player_center, false⟩],
          powerups := [] }
      else
        let r := enemy_projectile_player_collisions player_center
          player_half o.stats o.defense rest
        { r with survivors := p :: r.survivors }
    else
      let r := enemy_projectile_player_collisions player_center
        player_half stats defense rest
      { r with survivors := p :: r.survivors }

/-! ### Storyboard and wave director — `src/game/spawn.rs` -/

def BASE_INTERVAL : ℚ := mkRat 18 5

def TOP_Y : ℚ := 420

inductive MovementPattern
  | Straight (speed : ℚ)
  | Sine (speed amplitude frequency base_x : ℚ)
  | ZigZag (speed horizontal_speed direction : ℚ)
  | Tank (speed : ℚ)
  | Chaser (speed turn_rate : ℚ)
deriving DecidableEq, Repr

inductive MovementConfig
  | Straight (speed : Option ℚ) (scale_with_difficulty : Option Bool)
  | Sine (speed amplitude frequency frequency_gain base_x_offset : Option ℚ)
  | ZigZag (speed horizontal_speed direction : Option ℚ)
  | Tank (speed base_factor difficulty_factor : Option ℚ)
  | Chaser (speed turn_rate turn_rate_scale : Option ℚ)
deriving DecidableEq, Repr

/-- `MovementConfig::to_pattern` — `src/game/spawn.rs` lines 336-399. -/
def MovementConfig.to_pattern (c : MovementConfig) (difficulty_scale : ℚ)
    (lane_x : Option ℚ) : MovementPattern :=
  match c with
  | .Straight speed scale_with_difficulty =>
    let final_speed := speed.getD 160
    .Straight (if scale_with_difficulty.getD true then
      final_speed * difficulty_scale else final_speed)
  | .Sine speed amplitude frequency frequency_gain base_x_offset =>
    .Sine (speed.getD 130) (amplitude.getD 140)
      (frequency.getD (mkRat 7 5) + difficulty_scale * frequency_gain.getD (mkRat 3 20))
      (lane_x.getD 0 + base_x_offset.getD 0)
  | .ZigZag speed horizontal_speed direction =>
    .ZigZag (speed.getD 150) (horizontal_speed.getD 180)
      (direction.getD (if 0 ≤ lane_x.getD 0 then -1 else 1))
  | .Tank speed base_factor difficulty_factor =>
    .Tank (speed.getD 90 *
      (base_factor.getD (mkRat 4 5) + difficulty_scale * difficulty_factor.getD (mkRat 1 10)))
  | .Chaser speed turn_rate turn_rate_scale =>
    .Chaser (speed.getD 180)
      (turn_rate.getD 120 + difficulty_scale * turn_rate_scale.getD 20)

structure LaneWaveConfig where
  enemy : EnemyKind
  lanes : List ℚ
  y_offset : ℚ
  movement : MovementConfig
  powerup : Option PowerUpKind
  powerup_lane_index : Option Nat
deriving DecidableEq, Repr

structure FixedEnemyConfig where
  enemy : EnemyKind
  position : Vec2q
  movement : MovementConfig
  powerup : Option PowerUpKind
deriving DecidableEq, Repr

inductive WavePattern
  | Lane (config : LaneWaveConfig)
  | Fixed (enemies : List FixedEnemyConfig)
deriving DecidableEq, Repr

structure WaveDefinition where
  delay_seconds : ℚ
  pattern : WavePattern
deriving DecidableEq, Repr

structure Level where
  name : String
  waves : List WaveDefinition
deriving DecidableEq, Repr

structure Storyboard where
  levels : List Level
deriving DecidableEq, Repr

def Storyboard.level (sb : Storyboard) (index : Nat) : Option Level :=
  sb.levels.get? index

def Storyboard.first_delay (sb : Storyboard) (index : Nat) : Option ℚ :=
  ((sb.level index).bind fun level => level.waves.head?).map
    fun wave => wave.delay_seconds

def Storyboard.level_count (sb : Storyboard) : Nat :=
  sb.levels.length

structure SpawnEnemyEvent where
  kind : EnemyKind
  position : Vec2q
  movement : MovementPattern
  powerup : Option PowerUpKind
deriving DecidableEq, Repr

/-- `spawn_lane_wave` — one enemy per lane position; the configured
power-up is attached only at `powerup_lane_index`. -/
def spawn_lane_wave (config : LaneWaveConfig) (difficulty_scale : ℚ) :
    List SpawnEnemyEvent :=
  (config.lanes.enum).map fun (index, lane_x) =>
    { kind := config.enemy
      position := ⟨lane_x, TOP_Y + config.y_offset⟩
      movement := config.movement.to_pattern difficulty_scale (some lane_x)
      powerup := if config.powerup_lane_index = some index then
        config.powerup else none }

/-- `spawn_fixed_wave` — exact entities at exact positions. -/
def spawn_fixed_wave (enemies : List FixedEnemyConfig)
    (difficulty_scale : ℚ) : List SpawnEnemyEvent :=
  enemies.map fun e =>
    { kind := e.enemy
      position := e.position
      movement := e.movement.to_pattern difficulty_scale (some e.position.x)
      powerup := e.powerup }

def spawn_wave_from_definition (wave : WaveDefinition)
    (difficulty_scale : ℚ) : List SpawnEnemyEvent :=
  match wave.pattern with
  | .Lane config => spawn_lane_wave config difficulty_scale
  | .Fixed enemies => spawn_fixed_wave enemies difficulty_scale

/-- A bevy `Timer` in `Once` mode: `tick` clamps elapsed at the
duration; `just_finished` is true only on the tick that reaches it. -/
structure SimTimer where
  elapsed : ℚ
  duration : ℚ
deriving DecidableEq, Repr

def SimTimer.tick (t : SimTimer) (delta : ℚ) : SimTimer × Bool :=
  if t.duration ≤ t.elapsed then (t, false)
  else
    let e := t.elapsed + delta
    if t.duration ≤ e then ({ t with elapsed := t.duration }, true)
    else ({ t with elapsed := e }, false)

structure WaveDirector where
  timer : SimTimer
  wave_index : Nat
  difficulty : ℚ
  boss_active : Bool
  level_index : Nat
  pending_level : Option Nat
deriving DecidableEq, Repr

def WaveDirector.default : WaveDirector :=
  { timer := ⟨0, BASE_INTERVAL⟩, wave_index := 0, difficulty := 1,
    boss_active := false, level_index := 0, pending_level := none }

/-- `set_timer_for_next_wave` — `src/game/spawn.rs` lines 434-448:
`set_duration(delay * spawn_interval_factor)` followed by `reset()`. -/
def set_timer_for_next_wave (director : WaveDirector) (storyboard : Storyboard)
    (settings : GameSettings) : WaveDirector :=
  let delay :=
    match (storyboard.level director.level_index).bind
        (fun level => level.waves.get? director.wave_index) with
    | some wave => wave.delay_seconds
    | none =>
      match storyboard.first_delay director.level_index with
      | some d => d
      | none => BASE_INTERVAL
  { director with
      timer := ⟨0, delay * settings.difficulty.spawn_interval_factor⟩ }

/-- `advance_level` — `src/game/spawn.rs` lines 450-467. -/
def advance_level (director : WaveDirector) (storyboard : Storyboard)
    (settings : GameSettings) : WaveDirector :=
  let level_count := storyboard.level_count
  if level_count = 0 then director
  else
    let next_index :=
      director.pending_level.getD ((director.level_index + 1) % level_count)
    set_timer_for_next_wave
      { director with
          level_index := next_index
          wave_index := 0
          difficulty := settings.difficulty.enemy_health_factor
          pending_level := none }
      storyboard settings

/-- `reset_waves` — `src/game/spawn.rs` lines 469-481. -/
def reset_waves (director : WaveDirector) (storyboard : Storyboard)
    (settings : GameSettings) : WaveDirector :=
  set_timer_for_next_wave
    { director with
        wave_index := 0
        difficulty := settings.difficulty.enemy_health_factor
        boss_active := false
        level_index := 0
        pending_level := none }
    storyboard settings

/-- `drive_waves` — `src/game/spawn.rs` lines 487-532. -/
def drive_waves (director : WaveDirector) (storyboard : Storyboard)
    (settings : GameSettings) (delta : ℚ) :
    WaveDirector × List SpawnEnemyEvent :=
  if director.boss_active then (director, [])
  else
    match storyboard.level director.level_index with
    | none => (director, [])
    | some level =>
      if level.waves.isEmpty then (director, [])
      else
        let (timer, fired) := director.timer.tick delta
        let director := { director with timer := timer }
        if ¬ fired then (director, [])
        else
          let wave_count := level.waves.length
          let current_index := director.wave_index % wave_count
          let difficulty_scale :=
            director.difficulty * settings.difficulty.enemy_health_factor
          let events :=
            match level.waves.get? current_index with
            | some wave => spawn_wave_from_definition wave difficulty_scale
            | none => []
          let director := { director with
            wave_index := (director.wave_index + 1) % wave_count
            difficulty := director.difficulty + mkRat 1 20 }
          let director :=
            if director.wave_index = 0 ∧ director.pending_level = none ∧
                0 < storyboard.level_count then
              { director with
                  pending_level := some ((director.level_index + 1) % storyboard.level_count) }
            else director
          (set_timer_for_next_wave director storyboard settings, events)

/-- The built-in default storyboard — `impl Default for Storyboard`,
`src/game/spawn.rs` lines 92-194. -/
def Storyboard.defaultStoryboard : Storyboard :=
  { levels := [
      { name := "Default"
        waves := [
          ⟨BASE_INTERVAL, .Lane
            ⟨.Grunt, [-360, 0, 360], 0,
             .Straight (some 160) (some true), some .Rapid, some 1⟩⟩,
          ⟨BASE_INTERVAL, .Lane
            ⟨.Sine, [-360, 0, 360], 40,
             .Sine (some 130) (some 140) (some (mkRat 7 5)) (some (mkRat 3 20)) none,
             some .Shield, some 1⟩⟩,
          ⟨BASE_INTERVAL, .Lane
            ⟨.ZigZag, [-360, 0, 360], 60,
             .ZigZag (some 150) (some 180) none, some .Spread, some 1⟩⟩,
          ⟨BASE_INTERVAL, .Fixed [
            ⟨.Tank, ⟨-200, TOP_Y + 100⟩,
             .Tank (some 90) (some (mkRat 4 5)) (some (mkRat 1 10)), some .Health⟩,
            ⟨.Tank, ⟨200, TOP_Y + 100⟩,
             .Tank (some 90) (some (mkRat 4 5)) (some (mkRat 1 10)), none⟩]⟩,
          ⟨BASE_INTERVAL, .Lane
            ⟨.Chaser, [-180, 0, 180], 20,
             .Chaser (some 180) (some 120) (some 20), none, some 1⟩⟩,
          ⟨BASE_INTERVAL, .Lane
            ⟨.Grunt, [-360, 0, 360], 0,
             .Straight (some 165) (some true), some .Invincibility, some 1⟩⟩] }] }

/-! ### Boss encounter — `src/game/boss.rs` -/

inductive BossPhase
  | Entry
  | Second
  | Final
deriving DecidableEq, Repr

/-- Ordering of the phases along the encounter: Entry < Second < Final. -/
def BossPhase.rank : BossPhase → Nat
  | .Entry => 0
  | .Second => 1
  | .Final => 2

structure BossState where
  active : Bool
  entity : Option Nat
  max_health : ℚ
  health : ℚ
  spawn_score : Nat
deriving DecidableEq, Repr

def BossState.default : BossState :=
  { active := false, entity := none, max_health := 0, health := 0,
    spawn_score := 2600 }

/-- The `Enemy` component carried by a spawned entity. -/
structure EnemyComp where
  kind : EnemyKind
  health : Int
  score : Nat
  damage : Nat
deriving DecidableEq, Repr

structure BossControl where
  phase : BossPhase
  direction : ℚ
  elapsed : ℚ
  fire_timer : ℚ
deriving DecidableEq, Repr

/-- `trigger_boss_spawn` — `src/game/boss.rs` lines 78-130.  `fresh` is
the id bevy hands the newly spawned entity. -/
def trigger_boss_spawn (score : Nat) (st : BossState) (director : WaveDirector)
    (fresh : Nat) : BossState × WaveDirector × Option (EnemyComp × BossControl) :=
  if st.active ∨ score < st.spawn_score then (st, director, none)
  else
    let max_health : ℚ := 200
    ({ st with
          active := true
          entity := some fresh
          max_health := max_health
          health := max_health },
     { director with boss_active := true },
     some ({ kind := .Boss, health := 200,
             score := EnemyKind.Boss.score_value, damage := 1 },
           { phase := .Entry, direction := 1, elapsed := 0, fire_timer := 1 }))

/-- The health fraction computed each tick by
`boss_movement_and_attacks` — `src/game/boss.rs` lines 158-162:
`(enemy.health.max(0) as f32) / boss_state.max_health` when
`max_health > 0`, else `1.0`. -/
def boss_health_fraction (health : Int) (max_health : ℚ) : ℚ :=
  if 0 < max_health then ((max health 0 : Int) : ℚ) / max_health else 1

/-- The phase transition of `boss_movement_and_attacks` —
`src/game/boss.rs` lines 163-167. -/
def boss_phase_transition (phase : BossPhase) (r : ℚ) : BossPhase :=
  if r < mkRat 7 20 then .Final
  else if r < mkRat 13 20 then .Second
  else phase

/-- Reachability invariant tying the control phase to the most
recently observed health fraction: the tick loop only ever sets
`Final` at a fraction below 0.35 and `Second` at a fraction below
0.65, and the fraction never increases afterwards. -/
def phase_fraction_inv (phase : BossPhase) (r : ℚ) : Prop :=
  (phase = .Final → r < mkRat 7 20) ∧ (phase = .Second → r < mkRat 13 20)

/-- `boss_health_tracker` — `src/game/boss.rs` lines 245-275.  `query`
is the single boss row if the boss entity still exists. -/
def boss_health_tracker (query : Option (EnemyComp × Nat)) (st : BossState)
    (director : WaveDirector) (storyboard : Storyboard)
    (settings : GameSettings) : BossState × WaveDirector × List AudioCue :=
  match query with
  | some (enemy, entity) =>
    ({ st with
          entity := some entity
          health := ((max enemy.health 0 : Int) : ℚ) }, director, [])
  | none =>
    if st.active then
      ({ st with
            active := false
            entity := none
            health := 0
            max_health := 0
            spawn_score := st.spawn_score + 2600 },
       advance_level { director with boss_active := false } storyboard settings,
       [.UiSelect])
    else (st, director, [])

/-! ### Weapon state and power-up effects — `src/game/player.rs`,
`src/game/powerups.rs` -/

inductive WeaponMode
  | Single
  | Double
  | Spread3
  | Spread5
  | Laser
deriving DecidableEq, Repr

/-- Position of a mode along the upgrade chain. -/
def WeaponMode.rank : WeaponMode → Nat
  | .Single => 0
  | .Double => 1
  | .Spread3 => 2
  | .Spread5 => 3
  | .Laser => 4

structure PlayerWeaponState where
  mode : WeaponMode
  fire_rate_level : Nat
deriving DecidableEq, Repr

/-- `PlayerWeaponState::advance_mode` — `src/game/player.rs` lines 144-152. -/
def PlayerWeaponState.advance_mode (w : PlayerWeaponState) : PlayerWeaponState :=
  { w with mode :=
      match w.mode with
      | .Single => .Double
      | .Double => .Spread3
      | .Spread3 => .Spread5
      | .Spread5 => .Laser
      | .Laser => .Laser }

/-- `PlayerWeaponState::boost_fire_rate` — `src/game/player.rs` lines
154-157: `fire_rate_level.saturating_add(1).min(5)`. -/
def PlayerWeaponState.boost_fire_rate (w : PlayerWeaponState) : PlayerWeaponState :=
  { w with fire_rate_level := min (w.fire_rate_level + 1) 5 }

/-- The Shield pickup duration — `src/game/powerups.rs` line 208:
`defense.invulnerability.max(3.0)`. -/
def SHIELD_INVULNERABILITY : ℚ := 3

/-- Modelled from the spec: the Invincibility pickup duration.  The
five-kind power-up collector of the storyboard-integrated variant is
not under `src/` (the retained `src/game/powerups.rs` is the older
three-kind variant), and the spec fixes only that Invincibility "sets
invulnerability to at least a longer fixed duration" than Shield. -/
def INVINCIBILITY_INVULNERABILITY : ℚ := 6

/-- Modelled from the spec: the five-kind `apply_powerup` of the
storyboard-integrated variant is missing from `src/` — the retained
`src/game/powerups.rs` (lines 199-211) has only the Spread, Rapid and
Shield arms, although its callers in `src/game/spawn.rs` and
`src/game/collisions.rs` require all five kinds.  The first three arms
follow the retained source; the Health arm ("increments health by 1 up
to max_health") and the Invincibility arm ("sets invulnerability to at
least a longer fixed duration") follow the spec words.  Every arm ends
by emitting the pickup cue, as in the source. -/
def apply_powerup (kind : PowerUpKind) (weapon_state : PlayerWeaponState)
    (stats : PlayerStats) (defense : PlayerDefense) :
    PlayerWeaponState × PlayerStats × PlayerDefense × List AudioCue :=
  match kind with
  | .Spread => (weapon_state.advance_mode, stats, defense, [.Pickup])
  | .Rapid => (weapon_state.boost_fire_rate, stats, defense, [.Pickup])
  | .Shield =>
    (weapon_state, stats,
     { invulnerability := max defense.invulnerability SHIELD_INVULNERABILITY },
     [.Pickup])
  | .Health =>
    (weapon_state,
     { stats with health := min (stats.health + 1) stats.max_health },
     defense, [.Pickup])
  | .Invincibility =>
    (weapon_state, stats,
     { invulnerability :=
         max defense.invulnerability INVINCIBILITY_INVULNERABILITY },
     [.Pickup])

/-- One row of the power-up query. -/
structure PowerUpEnt where
  id : Nat
  kind : PowerUpKind
  center : Vec2q
  half : Vec2q
deriving DecidableEq, Repr

structure CollectOutcome where
  weapon : PlayerWeaponState
  stats : PlayerStats
  defense : PlayerDefense
  cues : List AudioCue
  survivors : List PowerUpEnt
deriving DecidableEq, Repr

/-- `collect_powerups` — `src/game/powerups.rs` lines 152-182: the
first power-up overlapping the player (same AABB test as the collision
passes) is consumed — its effect applied, the entity despawned — and
the loop breaks. -/
def collect_powerups (player_center player_half : Vec2q)
    (weapon_state : PlayerWeaponState) (stats : PlayerStats)
    (defense : PlayerDefense) : List PowerUpEnt → CollectOutcome
  | [] =>
    { weapon := weapon_state, stats := stats, defense := defense,
      cues := [], survivors := [] }
  | p :: rest =>
    if overlaps player_center player_half p.center p.half then
      let r := apply_powerup p.kind weapon_state stats defense
      { weapon := r.1, stats := r.2.1, defense := r.2.2.1,
        cues := r.2.2.2, survivors := rest }
    else
      let r := collect_powerups player_center player_half weapon_state
        stats defense rest
      { r with survivors := p :: r.survivors }

/-! ### Storyboard deserialization and load fallback —
`src/game/spawn.rs` lines 22-38 and 598-639 -/

/-- `value.replace(['-', '_', ' '], "").to_lowercase()`, written over
the character list of the string. -/
def normalize_kind_string (value : String) : String :=
  String.mk ((value.data.filter
    fun c => ¬ (c = '-' ∨ c = '_' ∨ c = ' ')).map Char.toLower)

/-- The message of `serde::de::Error::unknown_variant`: it names the
offending string and the accepted enumerated values. -/
def unknown_variant_error (value : String) (expected : List String) : String :=
  "unknown variant " ++ value ++ ", expected one of " ++
    String.intercalate ", " expected

def enemy_kind_variants : List String :=
  ["grunt", "sine", "zig_zag", "tank", "chaser", "boss"]

def power_up_kind_variants : List String :=
  ["spread", "rapid", "shield", "health", "invincibility"]

/-- `Deserialize for EnemyKind` — `src/game/spawn.rs` lines 598-618. -/
def deserialize_enemy_kind (value : String) : Except String EnemyKind :=
  let normalized := normalize_kind_string value
  if normalized = "grunt" then .ok .Grunt
  else if normalized = "sine" then .ok .Sine
  else if normalized = "zigzag" then .ok .ZigZag
  else if normalized = "tank" then .ok .Tank
  else if normalized = "chaser" then .ok .Chaser
  else if normalized = "boss" then .ok .Boss
  else .error (unknown_variant_error value enemy_kind_variants)

/-- `Deserialize for PowerUpKind` — `src/game/spawn.rs` lines 620-639. -/
def deserialize_power_up_kind (value : String) : Except String PowerUpKind :=
  let normalized := normalize_kind_string value
  if normalized = "spread" then .ok .Spread
  else if normalized = "rapid" then .ok .Rapid
  else if normalized = "shield" then .ok .Shield
  else if normalized = "health" then .ok .Health
  else if normalized = "invincibility" ∨ normalized = "invincible" then
    .ok .Invincibility
  else .error (unknown_variant_error value power_up_kind_variants)

inductive StoryboardLoadError
  | ioErr (msg : String)
  | parseErr (msg : String)
deriving DecidableEq, Repr

/-- The load site in `SpawnPlugin::build` — `src/game/spawn.rs` lines
22-38: `Storyboard::from_file(path).unwrap_or_else(default)`.  EVERY
load error — I/O or parse, including an unknown enemy/power-up kind
surfacing as a `serde_json::Error` — takes the same fallback to the
built-in default storyboard. -/
def load_storyboard_or_default
    (result : Except StoryboardLoadError Storyboard) : Storyboard :=
  match result with
  | .ok sb => sb
  | .error _ => Storyboard.defaultStoryboard

/-- A canonical enemy row for the iterated-strike property: centred at
the origin with a 48x48 sprite (half-extent 24), carrying its kind's
configured score value. -/
def strikeEnemy (kind : EnemyKind) (health : Int) : EnemyEnt :=
  { id := 1, kind := kind, health := health, score := kind.score_value,
    damage := 1, drop := none, center := ⟨0, 0⟩, half := ⟨24, 24⟩ }

/-- A canonical player bullet overlapping `strikeEnemy`. -/
def strikeBullet : BulletEnt := { id := 0, center := ⟨0, 0⟩, half := ⟨6, 12⟩ }

/-- One tick of the bullet-vs-enemy pass fed with a single fresh
bullet, keeping the surviving enemies and the score. -/
def bulletStrike (s : List EnemyEnt × Nat) : List EnemyEnt × Nat :=
  ((projectile_enemy_collisions [strikeBullet] s.1 s.2).enemies,
   (projectile_enemy_collisions [strikeBullet] s.1 s.2).score)

/-! ## Theorems -/

/-- A hit arriving while invulnerable is ignored entirely. -/
theorem handle_player_hit_of_invulnerable (stats : PlayerStats)
    (defense : PlayerDefense) (damage : Nat)
    (h : 0 < defense.invulnerability) :
    handle_player_hit stats defense damage =
      { stats := stats, defense := defense, gameOver := false,
        cues := [], lifeLost := false, accepted := false } := by
  simp [handle_player_hit, h]

/--
C1: the shared player hit-handling rule.  While `invulnerability > 0`
the hit is ignored with no state change and no cue; otherwise damage
(at least 1) is subtracted from health (floored at 0 by the saturating
subtraction) and a hit cue is emitted; health 0 with more than one
life left costs a life, refills health, arms the post-hit
invulnerability window, and emits the life-lost event; health 0 on the
last life zeroes lives and invulnerability and transitions to game
over; surviving health arms the post-hit window; the rule returns
whether the hit was accepted; the per-tick countdown is clamped at 0
and a hit arriving when the countdown has reached exactly 0 is
accepted.
-/
theorem handle_player_hit_spec (stats : PlayerStats) (defense : PlayerDefense)
    (damage : Nat) (inv delta : ℚ) :
    (0 < defense.invulnerability →
      handle_player_hit stats defense damage =
        { stats := stats, defense := defense, gameOver := false,
          cues := [], lifeLost := false, accepted := false }) ∧
    (¬ 0 < defense.invulnerability →
      (handle_player_hit stats defense damage).accepted = true ∧
      (handle_player_hit stats defense damage).cues = [.Hit] ∧
      1 ≤ max damage 1 ∧
      (stats.health - max damage 1 = 0 → 1 < stats.lives →
        (handle_player_hit stats defense damage).stats.lives = stats.lives - 1 ∧
        (handle_player_hit stats defense damage).stats.health = stats.max_health ∧
        (handle_player_hit stats defense damage).defense.invulnerability =
          PLAYER_HIT_INVULNERABILITY ∧
        (handle_player_hit stats defense damage).lifeLost = true ∧
        (handle_player_hit stats defense damage).gameOver = false) ∧
      (stats.health - max damage 1 = 0 → stats.lives = 1 →
        (handle_player_hit stats defense damage).stats.lives = 0 ∧
        (handle_player_hit stats defense damage).defense.invulnerability = 0 ∧
        (handle_player_hit stats defense damage).gameOver = true ∧
        (handle_player_hit stats defense damage).lifeLost = false) ∧
      (stats.health - max damage 1 ≠ 0 →
        (handle_player_hit stats defense damage).stats.health =
          stats.health - max damage 1 ∧
        (handle_player_hit stats defense damage).stats.lives = stats.lives ∧
        (handle_player_hit stats defense damage).defense.invulnerability =
          PLAYER_HIT_INVULNERABILITY ∧
        (handle_player_hit stats defense damage).gameOver = false)) ∧
    0 ≤ tick_player_invulnerability inv delta ∧
    (tick_player_invulnerability inv delta = 0 →
      (handle_player_hit stats ⟨tick_player_invulnerability inv delta⟩
        damage).accepted = true) := by
  refine ⟨fun h => handle_player_hit_of_invulnerable stats defense damage h,
    fun h => ?_, le_max_right _ _, fun h0 => ?_⟩
  · by_cases hh : stats.health - max damage 1 = 0
    · by_cases hl : 1 < stats.lives
      · simp [handle_player_hit, h, hh, hl]
        omega
      · simp [handle_player_hit, h, hh, hl]
        try omega
    · simp [handle_player_hit, h, hh]
      try omega
  · have : ¬ (0 : ℚ) <
        (PlayerDefense.mk (tick_player_invulnerability inv delta)).invulnerability := by
      simp [h0]
    rw [handle_player_hit, if_neg this]
    dsimp only
    split <;> [skip; rfl]
    split <;> rfl

/-- Witness for C1 at the concrete scenario health=5, lives=3,
damage=2, invulnerability=0. -/
theorem handle_player_hit_spec_witness :
    (handle_player_hit ⟨5, 5, 3, 3⟩ ⟨0⟩ 2).stats.health = 3 ∧
    (handle_player_hit ⟨5, 5, 3, 3⟩ ⟨0⟩ 2).stats.lives = 3 ∧
    (handle_player_hit ⟨5, 5, 3, 3⟩ ⟨0⟩ 2).defense.invulnerability =
      PLAYER_HIT_INVULNERABILITY ∧
    (handle_player_hit ⟨5, 5, 3, 3⟩ ⟨0⟩ 2).accepted = true := by
  have h := (handle_player_hit_spec ⟨5, 5, 3, 3⟩ ⟨0⟩ 2 0 0).2.1 (by decide)
  have hs := h.2.2.2.2.2 (by decide)
  exact ⟨hs.1, hs.2.1, hs.2.2.1, h.1⟩

/--
C10: every enemy spawned from a spawn request has health at least 1:
the ceiling of the kind base health (Grunt 1, Sine 2, ZigZag 2, Tank 6,
Chaser 3, Boss 200) times the difficulty enemy-health factor (0.9, 1.0
or 1.15) is a positive integer for every kind and difficulty; in
particular a Grunt on Easy spawns with health 1.
-/
theorem spawned_enemy_health_spec :
    (∀ (kind : EnemyKind) (difficulty : Difficulty),
      1 ≤ spawned_enemy_health kind difficulty) ∧
    spawned_enemy_health .Grunt .Easy = 1 ∧
    (EnemyKind.Grunt.health = 1 ∧ EnemyKind.Sine.health = 2 ∧
      EnemyKind.ZigZag.health = 2 ∧ EnemyKind.Tank.health = 6 ∧
      EnemyKind.Chaser.health = 3 ∧ EnemyKind.Boss.health = 200) ∧
    (Difficulty.Easy.enemy_health_factor = 9/10 ∧
      Difficulty.Normal.enemy_health_factor = 1 ∧
      Difficulty.Hard.enemy_health_factor = 23/20) := by
  refine ⟨fun kind difficulty => ?_, ?_, by norm_num [EnemyKind.health], ?_⟩
  · have hpos : (0 : ℚ) <
        (kind.health : ℚ) * difficulty.enemy_health_factor := by
      cases kind <;> cases difficulty <;>
        norm_num [EnemyKind.health, Difficulty.enemy_health_factor,
          Rat.mkRat_eq_div]
    have := Int.lt_ceil.mpr (by exact_mod_cast hpos :
      ((0 : Int) : ℚ) < (kind.health : ℚ) * difficulty.enemy_health_factor)
    unfold spawned_enemy_health
    omega
  · unfold spawned_enemy_health
    rw [Int.ceil_eq_iff]
    norm_num [EnemyKind.health, Difficulty.enemy_health_factor,
      Rat.mkRat_eq_div]
  · norm_num [Difficulty.enemy_health_factor, Rat.mkRat_eq_div]

/-- Witness for C10: a Grunt on Easy spawns with health 1, hence at
least 1. -/
theorem spawned_enemy_health_spec_witness :
    1 ≤ spawned_enemy_health .Grunt .Easy :=
  spawned_enemy_health_spec.1 .Grunt .Easy

/--
C4: the boss phase each tick is a pure function of the remaining
health fraction: it becomes Final below 0.35, Second in [0.35, 0.65),
and remains Entry at or above 0.65 (0.70 gives Entry, 0.60 gives
Second, 0.30 gives Final); along any run the fraction is non-increasing
in health, and under the reachability invariant the phase rank never
decreases.
-/
theorem boss_phase_transition_spec (p : BossPhase) (r r2 : ℚ)
    (health health2 : Int) (max_health : ℚ) :
    boss_phase_transition .Entry (mkRat 7 10) = .Entry ∧
    boss_phase_transition .Entry (mkRat 3 5) = .Second ∧
    boss_phase_transition .Entry (mkRat 3 10) = .Final ∧
    (mkRat 13 20 ≤ r → boss_phase_transition .Entry r = .Entry) ∧
    (mkRat 7 20 ≤ r → r < mkRat 13 20 → boss_phase_transition p r = .Second) ∧
    (r < mkRat 7 20 → boss_phase_transition p r = .Final) ∧
    (phase_fraction_inv p r → r2 ≤ r →
      p.rank ≤ (boss_phase_transition p r2).rank ∧
      phase_fraction_inv (boss_phase_transition p r2) r2) ∧
    (health2 ≤ health →
      boss_health_fraction health2 max_health ≤
        boss_health_fraction health max_health) := by
  have h720 : (mkRat 7 20 : ℚ) = 7/20 := by norm_num [Rat.mkRat_eq_div]
  have h1320 : (mkRat 13 20 : ℚ) = 13/20 := by norm_num [Rat.mkRat_eq_div]
  refine ⟨?_, ?_, ?_, fun h => ?_, fun ha hb => ?_, fun h => ?_,
    fun hinv hle => ?_, fun hle => ?_⟩
  · norm_num [boss_phase_transition, Rat.mkRat_eq_div]
  · norm_num [boss_phase_transition, Rat.mkRat_eq_div]
  · norm_num [boss_phase_transition, Rat.mkRat_eq_div]
  · have h2 : (13:ℚ)/20 ≤ r := by rw [h1320] at h; exact h
    rw [boss_phase_transition, if_neg (by rw [h720]; linarith),
      if_neg (by rw [h1320]; linarith)]
  · have ha2 : (7:ℚ)/20 ≤ r := by rw [h720] at ha; exact ha
    rw [boss_phase_transition, if_neg (by rw [h720]; linarith), if_pos hb]
  · rw [boss_phase_transition, if_pos h]
  · obtain ⟨hF, hS⟩ := hinv
    unfold boss_phase_transition phase_fraction_inv
    split_ifs with hA hB <;>
      cases p <;>
        simp_all [BossPhase.rank] <;> linarith
  · unfold boss_health_fraction
    split_ifs with hm
    · have hmax : ((max health2 0 : Int) : ℚ) ≤ ((max health 0 : Int) : ℚ) := by
        exact_mod_cast max_le_max hle (le_refl (0 : Int))
      gcongr
    · exact le_refl 1

/-- Witness for C4 at fraction 0.30 dropping from 1: the phase moves
from Entry to Final and its rank does not decrease. -/
theorem boss_phase_transition_spec_witness :
    boss_phase_transition .Entry (mkRat 3 10) = .Final ∧
    BossPhase.Entry.rank ≤ (boss_phase_transition .Entry (mkRat 3 10)).rank := by
  have h := boss_phase_transition_spec .Entry (mkRat 3 10) (mkRat 3 10) 200 60 200
  exact ⟨h.2.2.2.2.2.1 (by decide),
    (h.2.2.2.2.2.2.1 (by simp [phase_fraction_inv]) (le_refl _)).1⟩

/--
C5: when the score reaches the current `spawn_score` threshold
(initially 2600) and no boss is active, exactly one Boss enemy spawns
with health = max_health = 200 and phase Entry, the boss state becomes
active and the wave director is suspended (its tick is a no-op); once
active the trigger refuses to fire again, and the threshold grows by
2600 on each defeat, so it fires at most once per threshold.
-/
theorem trigger_boss_spawn_spec (score : Nat) (st : BossState)
    (director : WaveDirector) (fresh : Nat) (storyboard : Storyboard)
    (settings : GameSettings) (delta : ℚ) :
    (st.active = true ∨ score < st.spawn_score →
      trigger_boss_spawn score st director fresh = (st, director, none)) ∧
    (BossState.default.spawn_score = 2600) ∧
    (st.active = false → st.spawn_score ≤ score →
      (trigger_boss_spawn score st director fresh).2.2 =
        some ({ kind := .Boss, health := 200,
                score := EnemyKind.Boss.score_value, damage := 1 },
              { phase := .Entry, direction := 1, elapsed := 0, fire_timer := 1 }) ∧
      (trigger_boss_spawn score st director fresh).1.active = true ∧
      (trigger_boss_spawn score st director fresh).1.health = 200 ∧
      (trigger_boss_spawn score st director fresh).1.max_health = 200 ∧
      (trigger_boss_spawn score st director fresh).2.1.boss_active = true ∧
      drive_waves (trigger_boss_spawn score st director fresh).2.1
          storyboard settings delta =
        ((trigger_boss_spawn score st director fresh).2.1, []) ∧
      (∀ (score2 fresh2 : Nat),
        trigger_boss_spawn score2 (trigger_boss_spawn score st director fresh).1
            ((trigger_boss_spawn score st director fresh).2.1) fresh2 =
          ((trigger_boss_spawn score st director fresh).1,
           (trigger_boss_spawn score st director fresh).2.1, none))) ∧
    (∀ (st2 : BossState) (d2 : WaveDirector), st2.active = true →
      (boss_health_tracker none st2 d2 storyboard settings).1.spawn_score =
        st2.spawn_score + 2600) := by
  refine ⟨fun h => ?_, rfl, fun ha hs => ?_, fun st2 d2 h2 => ?_⟩
  · rcases h with h | h <;> simp [trigger_boss_spawn, h]
  · have hcond : ¬ (st.active = true ∨ score < st.spawn_score) := by
      simp [ha]
      omega
    refine ⟨?_, ?_, ?_, ?_, ?_, ?_, ?_⟩ <;>
      simp [trigger_boss_spawn, hcond, ha, Nat.not_lt.mpr hs, drive_waves]
  · simp [boss_health_tracker, h2]

/-- Witness for C5: from the default boss state at score 2600 the
trigger arms the encounter with health = max_health = 200. -/
theorem trigger_boss_spawn_spec_witness :
    (trigger_boss_spawn 2600 BossState.default WaveDirector.default 7).1.active
      = true ∧
    (trigger_boss_spawn 2600 BossState.default WaveDirector.default 7).1.health
      = 200 ∧
    (trigger_boss_spawn 2600 BossState.default WaveDirector.default
      7).2.1.boss_active = true := by
  have h := (trigger_boss_spawn_spec 2600 BossState.default
    WaveDirector.default 7 ⟨[]⟩ ⟨.Normal⟩ 1).2.2.1 (by decide) (by decide)
  exact ⟨h.2.1, h.2.2.1, h.2.2.2.2.1⟩

/--
C6: when the boss entity no longer exists while the encounter is
active, the same step clears the encounter (active false, entity and
health and max_health zeroed), releases the wave director, commits the
pending or next level immediately (level index advances, wave index
resets to 0, difficulty accumulator resets to the enemy-health factor,
pending marker consumed, timer reprimed to the new level's first delay
scaled by the spawn-interval factor), and emits a UI-select cue.
-/
theorem boss_health_tracker_spec (st : BossState) (director : WaveDirector)
    (storyboard : Storyboard) (settings : GameSettings)
    (ha : st.active = true) (hc : 0 < storyboard.level_count) :
    (boss_health_tracker none st director storyboard settings).1.active = false ∧
    (boss_health_tracker none st director storyboard settings).1.entity = none ∧
    (boss_health_tracker none st director storyboard settings).1.health = 0 ∧
    (boss_health_tracker none st director storyboard
      settings).1.max_health = 0 ∧
    (boss_health_tracker none st director storyboard
      settings).2.1.boss_active = false ∧
    (boss_health_tracker none st director storyboard
      settings).2.1.level_index =
      director.pending_level.getD
        ((director.level_index + 1) % storyboard.level_count) ∧
    (boss_health_tracker none st director storyboard
      settings).2.1.wave_index = 0 ∧
    (boss_health_tracker none st director storyboard
      settings).2.1.difficulty = settings.difficulty.enemy_health_factor ∧
    (boss_health_tracker none st director storyboard
      settings).2.1.pending_level = none ∧
    (boss_health_tracker none st director storyboard
      settings).2.1.timer.elapsed = 0 ∧
    (boss_health_tracker none st director storyboard
      settings).2.1.timer.duration =
      ((storyboard.first_delay
          (director.pending_level.getD
            ((director.level_index + 1) % storyboard.level_count))).getD
        BASE_INTERVAL) * settings.difficulty.spawn_interval_factor ∧
    (boss_health_tracker none st director storyboard
      settings).2.2 = [.UiSelect] := by
  have hnz : ¬ storyboard.level_count = 0 := by omega
  refine ⟨?_, ?_, ?_, ?_, ?_, ?_, ?_, ?_, ?_, ?_, ?_, ?_⟩ <;>
    simp [boss_health_tracker, ha, advance_level, hnz,
      set_timer_for_next_wave, Storyboard.first_delay]
  cases hl : storyboard.level
      (director.pending_level.getD
        ((director.level_index + 1) % storyboard.level_count)) with
  | none => simp [hl]
  | some level =>
    cases hw : level.waves with
    | nil => simp [hl, hw]
    | cons w ws => simp [hl, hw]

/-- Witness for C6: defeating a boss over the default storyboard from
an active encounter resets the wave machinery for the next level. -/
theorem boss_health_tracker_spec_witness :
    (boss_health_tracker none
      { active := true, entity := some 7, max_health := 200, health := 0,
        spawn_score := 2600 }
      WaveDirector.default Storyboard.defaultStoryboard ⟨.Normal⟩).1.active
      = false ∧
    (boss_health_tracker none
      { active := true, entity := some 7, max_health := 200, health := 0,
        spawn_score := 2600 }
      WaveDirector.default Storyboard.defaultStoryboard
      ⟨.Normal⟩).2.1.wave_index = 0 := by
  have h := boss_health_tracker_spec
    { active := true, entity := some 7, max_health := 200, health := 0,
      spawn_score := 2600 }
    WaveDirector.default Storyboard.defaultStoryboard ⟨.Normal⟩
    rfl (by decide)
  exact ⟨h.1, h.2.2.2.2.2.2.1⟩

/-- Projection facts for `set_timer_for_next_wave`: it changes only
the timer. -/
lemma set_timer_difficulty (d : WaveDirector) (sb : Storyboard)
    (s : GameSettings) :
    (set_timer_for_next_wave d sb s).difficulty = d.difficulty := rfl

lemma set_timer_level_index (d : WaveDirector) (sb : Storyboard)
    (s : GameSettings) :
    (set_timer_for_next_wave d sb s).level_index = d.level_index := rfl

lemma set_timer_wave_index (d : WaveDirector) (sb : Storyboard)
    (s : GameSettings) :
    (set_timer_for_next_wave d sb s).wave_index = d.wave_index := rfl

lemma set_timer_pending (d : WaveDirector) (sb : Storyboard)
    (s : GameSettings) :
    (set_timer_for_next_wave d sb s).pending_level = d.pending_level := rfl

lemma set_timer_elapsed (d : WaveDirector) (sb : Storyboard)
    (s : GameSettings) :
    (set_timer_for_next_wave d sb s).timer.elapsed = 0 := rfl

lemma set_timer_duration (d : WaveDirector) (sb : Storyboard)
    (s : GameSettings) :
    (set_timer_for_next_wave d sb s).timer.duration =
      (match (sb.level d.level_index).bind
          (fun level => level.waves.get? d.wave_index) with
       | some wave => wave.delay_seconds
       | none =>
         match sb.first_delay d.level_index with
         | some x => x
         | none => BASE_INTERVAL) * s.difficulty.spawn_interval_factor := rfl

/-- One-step characterization of `drive_waves` when the wave timer
does not expire this tick: only the timer advances. -/
lemma drive_waves_not_fired (d : WaveDirector) (sb : Storyboard)
    (s : GameSettings) (delta : ℚ) (level : Level)
    (hb : d.boss_active = false)
    (hl : sb.level d.level_index = some level)
    (hw : level.waves ≠ [])
    (ht : (d.timer.tick delta).2 = false) :
    drive_waves d sb s delta = ({ d with timer := (d.timer.tick delta).1 }, []) := by
  have hne : level.waves.isEmpty = false := by
    cases hwv : level.waves with
    | nil => exact absurd hwv hw
    | cons a l => rfl
  have htick : d.timer.tick delta = ((d.timer.tick delta).1, false) := by
    conv_lhs => rw [← Prod.mk.eta (p := d.timer.tick delta)]
    rw [ht]
  generalize hgt : (d.timer.tick delta).1 = t0 at htick ⊢
  unfold drive_waves
  rw [if_neg (by simp [hb]), hl, htick]
  simp [hne]

/-- One-step characterization of `drive_waves` on timer expiry. -/
lemma drive_waves_fired_eq (d : WaveDirector) (sb : Storyboard)
    (s : GameSettings) (delta : ℚ) (level : Level)
    (hb : d.boss_active = false)
    (hl : sb.level d.level_index = some level)
    (hw : level.waves ≠ [])
    (ht : (d.timer.tick delta).2 = true) :
    drive_waves d sb s delta =
      (set_timer_for_next_wave
        (if (d.wave_index + 1) % level.waves.length = 0 ∧
            d.pending_level = none ∧ 0 < sb.level_count then
          { d with timer := (d.timer.tick delta).1,
                   wave_index := (d.wave_index + 1) % level.waves.length,
                   difficulty := d.difficulty + mkRat 1 20,
                   pending_level := some ((d.level_index + 1) % sb.level_count) }
         else
          { d with timer := (d.timer.tick delta).1,
                   wave_index := (d.wave_index + 1) % level.waves.length,
                   difficulty := d.difficulty + mkRat 1 20 }) sb s,
       match level.waves.get? (d.wave_index % level.waves.length) with
       | some wave => spawn_wave_from_definition wave
           (d.difficulty * s.difficulty.enemy_health_factor)
       | none => []) := by
  have hne : level.waves.isEmpty = false := by
    cases hwv : level.waves with
    | nil => exact absurd hwv hw
    | cons a l => rfl
  have htick : d.timer.tick delta = ((d.timer.tick delta).1, true) := by
    conv_lhs => rw [← Prod.mk.eta (p := d.timer.tick delta)]
    rw [ht]
  generalize hgt : (d.timer.tick delta).1 = t0 at htick ⊢
  unfold drive_waves
  rw [if_neg (by simp [hb]), hl, htick]
  simp only [hne, Bool.false_eq_true, if_false, not_true, ite_false, ite_true]

/--
C3: the wave director step skips entirely while a boss is active; on
timer expiry it resolves the wave at `wave_index mod wave_count`,
increments `wave_index` modulo the wave count, adds exactly 0.05 to
the difficulty accumulator (which never decreases within a level and
is reset to the enemy-health factor only by `advance_level`), marks a
pending next level when the index wrapped to zero unless one is
already pending, and reprimes the timer to the next wave's configured
delay scaled by the spawn-interval factor.
-/
theorem drive_waves_spec (d : WaveDirector) (sb : Storyboard)
    (s : GameSettings) (delta : ℚ) :
    (d.boss_active = true → drive_waves d sb s delta = (d, [])) ∧
    d.difficulty ≤ (drive_waves d sb s delta).1.difficulty ∧
    (drive_waves d sb s delta).1.level_index = d.level_index ∧
    (0 < sb.level_count →
      (advance_level d sb s).difficulty = s.difficulty.enemy_health_factor ∧
      (advance_level d sb s).wave_index = 0) ∧
    (∀ level, d.boss_active = false →
      sb.level d.level_index = some level → level.waves ≠ [] →
      (d.timer.tick delta).2 = true →
      ((∀ wave,
          level.waves.get? (d.wave_index % level.waves.length) = some wave →
          (drive_waves d sb s delta).2 = spawn_wave_from_definition wave
            (d.difficulty * s.difficulty.enemy_health_factor)) ∧
       (drive_waves d sb s delta).1.wave_index =
         (d.wave_index + 1) % level.waves.length ∧
       (drive_waves d sb s delta).1.difficulty = d.difficulty + mkRat 1 20 ∧
       (drive_waves d sb s delta).1.pending_level =
         (if (d.wave_index + 1) % level.waves.length = 0 ∧
             d.pending_level = none
          then some ((d.level_index + 1) % sb.level_count)
          else d.pending_level) ∧
       (drive_waves d sb s delta).1.timer.elapsed = 0 ∧
       (∀ wave2,
          level.waves.get? ((d.wave_index + 1) % level.waves.length) =
            some wave2 →
          (drive_waves d sb s delta).1.timer.duration =
            wave2.delay_seconds * s.difficulty.spawn_interval_factor))) := by
  have hstep : (0:ℚ) ≤ mkRat 1 20 := by norm_num [Rat.mkRat_eq_div]
  have hcases : drive_waves d sb s delta = (d, []) ∨
      (drive_waves d sb s delta).1.difficulty = d.difficulty ∧
        (drive_waves d sb s delta).1.level_index = d.level_index ∨
      (drive_waves d sb s delta).1.difficulty = d.difficulty + mkRat 1 20 ∧
        (drive_waves d sb s delta).1.level_index = d.level_index := by
    by_cases hb : d.boss_active
    · exact Or.inl (by simp [drive_waves, hb])
    · cases hlev : sb.level d.level_index with
      | none => exact Or.inl (by simp [drive_waves, hb, hlev])
      | some level =>
        by_cases hwv : level.waves = []
        · exact Or.inl (by simp [drive_waves, hb, hlev, hwv])
        · cases hf : (d.timer.tick delta).2 with
          | false =>
            rw [drive_waves_not_fired d sb s delta level
              (by simp [hb]) hlev hwv hf]
            exact Or.inr (Or.inl ⟨rfl, rfl⟩)
          | true =>
            rw [drive_waves_fired_eq d sb s delta level
              (by simp [hb]) hlev hwv hf]
            refine Or.inr (Or.inr ⟨?_, ?_⟩)
            · rw [set_timer_difficulty]
              split_ifs <;> rfl
            · rw [set_timer_level_index]
              split_ifs <;> rfl
  refine ⟨fun hb => by simp [drive_waves, hb], ?_, ?_, fun hc => ?_, ?_⟩
  · rcases hcases with h | ⟨h, _⟩ | ⟨h, _⟩
    · rw [h]
    · rw [h]
    · rw [h]; exact le_add_of_nonneg_right hstep
  · rcases hcases with h | ⟨_, h⟩ | ⟨_, h⟩
    · rw [h]
    · exact h
    · exact h
  · have hnz : ¬ sb.level_count = 0 := by omega
    constructor
    · simp [advance_level, hnz, set_timer_difficulty]
    · simp [advance_level, hnz, set_timer_wave_index]
  · intro level hb hlev hwv hf
    have heq := drive_waves_fired_eq d sb s delta level hb hlev hwv hf
    have hcount : 0 < sb.level_count := by
      have := List.get?_eq_some.mp hlev
      obtain ⟨hlt, _⟩ := this
      unfold Storyboard.level_count
      omega
    refine ⟨fun wave hwave => ?_, ?_, ?_, ?_, ?_, fun wave2 hwave2 => ?_⟩
    · rw [heq, hwave]
    · rw [heq, set_timer_wave_index]
      split_ifs <;> rfl
    · rw [heq, set_timer_difficulty]
      split_ifs <;> rfl
    · rw [heq, set_timer_pending]
      by_cases hcond : (d.wave_index + 1) % level.waves.length = 0 ∧
          d.pending_level = none
      · rw [if_pos ⟨hcond.1, hcond.2, hcount⟩, if_pos hcond]
      · rw [if_neg (by tauto), if_neg hcond]
    · rw [heq, set_timer_elapsed]
    · rw [heq, set_timer_duration]
      split_ifs <;> simp only [hlev, Option.some_bind, hwave2]

/-- Witness for C3: a boss-active director is left untouched, and
level advance over the default storyboard resets the wave index. -/
theorem drive_waves_spec_witness :
    drive_waves { WaveDirector.default with boss_active := true }
      Storyboard.defaultStoryboard ⟨.Normal⟩ 1 =
      ({ WaveDirector.default with boss_active := true }, []) ∧
    (advance_level WaveDirector.default Storyboard.defaultStoryboard
      ⟨.Normal⟩).wave_index = 0 := by
  refine ⟨(drive_waves_spec { WaveDirector.default with boss_active := true }
      Storyboard.defaultStoryboard ⟨.Normal⟩ 1).1 rfl,
    ((drive_waves_spec WaveDirector.default Storyboard.defaultStoryboard
      ⟨.Normal⟩ 1).2.2.2.1 (by decide)).2⟩


/-- The two player-hit scans despawn at most one candidate: they break
after the first accepted hit. -/
lemma player_enemy_collisions_despawn_le (pc ph : Vec2q)
    (stats : PlayerStats) (defense : PlayerDefense) (es : List EnemyEnt) :
    (player_enemy_collisions pc ph stats defense es).despawned.length ≤ 1 := by
  induction es generalizing stats defense with
  | nil => simp [player_enemy_collisions]
  | cons e rest ih =>
    unfold player_enemy_collisions
    by_cases ho : overlaps pc ph e.center e.half
    · rw [if_pos ho]
      by_cases ha : (handle_player_hit stats defense e.damage).accepted = true
      · simp [ha]
      · simp only [Bool.not_eq_true] at ha
        simp [ha]
        exact ih _ _
    · rw [if_neg ho]
      exact ih _ _

lemma enemy_projectile_player_collisions_despawn_le (pc ph : Vec2q)
    (stats : PlayerStats) (defense : PlayerDefense)
    (ps : List EnemyProjEnt) :
    (enemy_projectile_player_collisions pc ph stats defense
      ps).despawned.length ≤ 1 := by
  induction ps generalizing stats defense with
  | nil => simp [enemy_projectile_player_collisions]
  | cons p rest ih =>
    unfold enemy_projectile_player_collisions
    by_cases ho : overlaps pc ph p.center p.half
    · rw [if_pos ho]
      by_cases ha : (handle_player_hit stats defense p.damage).accepted = true
      · simp [ha]
      · simp only [Bool.not_eq_true] at ha
        simp [ha]
        exact ih _ _
    · rw [if_neg ho]
      exact ih _ _

lemma player_enemy_collisions_invulnerable (pc ph : Vec2q)
    (stats : PlayerStats) (defense : PlayerDefense) (es : List EnemyEnt)
    (h : 0 < defense.invulnerability) :
    player_enemy_collisions pc ph stats defense es =
      { stats := stats, defense := defense, gameOver := false, cues := [],
        lifeLost := false, survivors := es, despawned := [],
        explosions := [], powerups := [] } := by
  induction es with
  | nil => rfl
  | cons e rest ih =>
    unfold player_enemy_collisions
    by_cases ho : overlaps pc ph e.center e.half
    · rw [if_pos ho, handle_player_hit_of_invulnerable stats defense e.damage h]
      simp [ih]
    · rw [if_neg ho]
      simp [ih]

lemma enemy_projectile_player_collisions_invulnerable (pc ph : Vec2q)
    (stats : PlayerStats) (defense : PlayerDefense) (ps : List EnemyProjEnt)
    (h : 0 < defense.invulnerability) :
    enemy_projectile_player_collisions pc ph stats defense ps =
      { stats := stats, defense := defense, gameOver := false, cues := [],
        lifeLost := false, survivors := ps, despawned := [],
        explosions := [], powerups := [] } := by
  induction ps with
  | nil => rfl
  | cons p rest ih =>
    unfold enemy_projectile_player_collisions
    by_cases ho : overlaps pc ph p.center p.half
    · rw [if_pos ho, handle_player_hit_of_invulnerable stats defense p.damage h]
      simp [ih]
    · rw [if_neg ho]
      simp [ih]

/--
C9: per tick the player-vs-enemy contact pass despawns at most one
enemy and the enemy-projectile-vs-player pass despawns at most one
projectile; each scans candidates in iteration order and stops at the
first accepted hit, and an overlap rejected by the invulnerability
gate leaves every candidate alive while the scan runs on.
-/
theorem player_hit_scan_spec (player_center player_half : Vec2q)
    (stats : PlayerStats) (defense : PlayerDefense)
    (enemies erest : List EnemyEnt) (e : EnemyEnt)
    (projectiles prest : List EnemyProjEnt) (p : EnemyProjEnt) :
    (player_enemy_collisions player_center player_half stats defense
      enemies).despawned.length ≤ 1 ∧
    (enemy_projectile_player_collisions player_center player_half stats
      defense projectiles).despawned.length ≤ 1 ∧
    (overlaps player_center player_half e.center e.half →
      (handle_player_hit stats defense e.damage).accepted = true →
      (player_enemy_collisions player_center player_half stats defense
        (e :: erest)).despawned = [e.id] ∧
      (player_enemy_collisions player_center player_half stats defense
        (e :: erest)).survivors = erest) ∧
    (overlaps player_center player_half p.center p.half →
      (handle_player_hit stats defense p.damage).accepted = true →
      (enemy_projectile_player_collisions player_center player_half stats
        defense (p :: prest)).despawned = [p.id] ∧
      (enemy_projectile_player_collisions player_center player_half stats
        defense (p :: prest)).survivors = prest) ∧
    (0 < defense.invulnerability →
      player_enemy_collisions player_center player_half stats defense
        enemies =
        { stats := stats, defense := defense, gameOver := false, cues := [],
          lifeLost := false, survivors := enemies, despawned := [],
          explosions := [], powerups := [] } ∧
      enemy_projectile_player_collisions player_center player_half stats
        defense projectiles =
        { stats := stats, defense := defense, gameOver := false, cues := [],
          lifeLost := false, survivors := projectiles, despawned := [],
          explosions := [], powerups := [] }) := by
  refine ⟨player_enemy_collisions_despawn_le _ _ _ _ _,
    enemy_projectile_player_collisions_despawn_le _ _ _ _ _,
    fun ho ha => ?_, fun ho ha => ?_,
    fun h => ⟨player_enemy_collisions_invulnerable _ _ _ _ _ h,
      enemy_projectile_player_collisions_invulnerable _ _ _ _ _ h⟩⟩
  · unfold player_enemy_collisions
    rw [if_pos ho]
    simp [ha]
  · unfold enemy_projectile_player_collisions
    rw [if_pos ho]
    simp [ha]

theorem player_hit_scan_spec_witness :
    (player_enemy_collisions ⟨0, 0⟩ ⟨0, 0⟩ ⟨5, 5, 3, 3⟩ ⟨0⟩
      [{ id := 4, kind := .Grunt, health := 1, score := 100, damage := 1,
         drop := none, center := ⟨0, 0⟩, half := ⟨0, 0⟩ }]).despawned = [4] ∧
    (enemy_projectile_player_collisions ⟨0, 0⟩ ⟨0, 0⟩ ⟨5, 5, 3, 3⟩ ⟨1⟩
      [⟨9, 1, ⟨0, 0⟩, ⟨0, 0⟩⟩]).survivors = [⟨9, 1, ⟨0, 0⟩, ⟨0, 0⟩⟩] := by
  have h1 := (player_hit_scan_spec ⟨0, 0⟩ ⟨0, 0⟩ ⟨5, 5, 3, 3⟩ ⟨0⟩
    [{ id := 4, kind := .Grunt, health := 1, score := 100, damage := 1,
       drop := none, center := ⟨0, 0⟩, half := ⟨0, 0⟩ }] []
    { id := 4, kind := .Grunt, health := 1, score := 100, damage := 1,
      drop := none, center := ⟨0, 0⟩, half := ⟨0, 0⟩ }
    [] [] ⟨9, 1, ⟨0, 0⟩, ⟨0, 0⟩⟩).2.2.1
    (by simp [overlaps]) (by decide)
  have h2 := (player_hit_scan_spec ⟨0, 0⟩ ⟨0, 0⟩ ⟨5, 5, 3, 3⟩ ⟨1⟩
    [] [] ⟨4, .Grunt, 1, 100, 1, none, ⟨0, 0⟩, ⟨0, 0⟩⟩
    [⟨9, 1, ⟨0, 0⟩, ⟨0, 0⟩⟩] [] ⟨9, 1, ⟨0, 0⟩, ⟨0, 0⟩⟩).2.2.2.2
    (by decide)
  exact ⟨h1.1, by rw [h2.2]⟩

/-- The canonical bullet and enemy of the strike scenario overlap. -/
lemma strike_overlap :
    decide (overlaps ⟨0, 0⟩ ⟨24, 24⟩ ⟨0, 0⟩ ⟨6, 12⟩) = true := by
  rw [decide_eq_true_iff]
  constructor <;> norm_num [overlaps]

lemma bulletStrike_nil (s : Nat) : bulletStrike ([], s) = ([], s) := by
  simp [bulletStrike, projectile_enemy_collisions, computeHits]

lemma strike_pass (k : EnemyKind) (h : Int) (s : Nat) :
    projectile_enemy_collisions [strikeBullet] [strikeEnemy k h] s =
      { enemies := if h - 1 ≤ 0 then [] else [strikeEnemy k (h - 1)]
        bullets := []
        score := if h - 1 ≤ 0 then s + k.score_value else s
        cues := if h - 1 ≤ 0 then [.Explosion] else []
        explosions := if h - 1 ≤ 0 then
          [⟨⟨0, 0⟩, decide (k = .Tank ∨ k = .Boss)⟩] else []
        powerups := [] } := by
  by_cases hd : h - 1 ≤ 0 <;>
    simp [projectile_enemy_collisions, computeHits, applyHit, strike_overlap,
      hd, strikeEnemy, strikeBullet, List.find?, List.filterMap]

lemma bulletStrike_live (k : EnemyKind) (h : Int) (s : Nat) (hh : 1 < h) :
    bulletStrike ([strikeEnemy k h], s) = ([strikeEnemy k (h - 1)], s) := by
  have hd : ¬ (h - 1 ≤ 0) := by omega
  simp [bulletStrike, strike_pass, hd]

lemma bulletStrike_kill (k : EnemyKind) (h : Int) (s : Nat)
    (hd : h - 1 ≤ 0) :
    bulletStrike ([strikeEnemy k h], s) = ([], s + k.score_value) := by
  simp [bulletStrike, strike_pass, hd]

lemma bulletStrike_iter (k : EnemyKind) (H : Int) (s : Nat) (hH : 0 < H)
    (N : Nat) :
    ((N : Int) < H →
      bulletStrike^[N] ([strikeEnemy k H], s) = ([strikeEnemy k (H - N)], s)) ∧
    (H ≤ (N : Int) →
      bulletStrike^[N] ([strikeEnemy k H], s) = ([], s + k.score_value)) := by
  induction N with
  | zero =>
    constructor
    · intro _
      simp
    · intro hle
      exfalso
      omega
  | succ n ih =>
    rw [Function.iterate_succ_apply']
    constructor
    · intro hlt
      have hn : (n : Int) < H := by push_cast at hlt ⊢; omega
      rw [ih.1 hn, bulletStrike_live k (H - n) s (by push_cast at hlt; omega)]
      have hsub : H - (n : Int) - 1 = H - (((n + 1 : Nat)) : Int) := by
        push_cast
        ring
      rw [hsub]
    · intro hge
      by_cases hn : H ≤ (n : Int)
      · rw [ih.2 hn, bulletStrike_nil]
      · have hlt : (n : Int) < H := by omega
        have h1 : H - (n : Int) = 1 := by push_cast at hge; omega
        rw [ih.1 hlt, h1]
        exact bulletStrike_kill k 1 s (by norm_num)

/--
C2: an enemy with initial health H struck by N player bullets in the
bullet-vs-enemy pass has health H−N and still exists while N < H; once
N ≥ H it is removed and the score is credited with its configured
value exactly once; each bullet matches at most one enemy (the first
found in query order), a matched bullet is removed, a matched enemy's
health drops by exactly 1 per bullet, and on death the requested
explosion is large exactly when the kind is Tank or Boss.
-/
theorem projectile_enemy_collisions_spec (kind : EnemyKind) (H : Int)
    (s N : Nat) (hH : 0 < H) :
    ((N : Int) < H →
      bulletStrike^[N] ([strikeEnemy kind H], s) =
        ([strikeEnemy kind (H - N)], s)) ∧
    (H ≤ (N : Int) →
      bulletStrike^[N] ([strikeEnemy kind H], s) =
        ([], s + kind.score_value)) ∧
    (projectile_enemy_collisions [strikeBullet] [strikeEnemy kind H]
      s).bullets = [] ∧
    (1 < H →
      (projectile_enemy_collisions [strikeBullet] [strikeEnemy kind H]
        s).enemies = [strikeEnemy kind (H - 1)]) ∧
    (projectile_enemy_collisions [strikeBullet] [strikeEnemy kind 1]
      s).explosions =
      [⟨⟨0, 0⟩, decide (kind = .Tank ∨ kind = .Boss)⟩] ∧
    (∀ (bullets : List BulletEnt) (enemies : List EnemyEnt) (b : BulletEnt),
      computeHits (b :: bullets) enemies =
        ((enemies.find? fun e =>
            decide (overlaps e.center e.half b.center b.half)).map
          fun e => (b.id, e.id)).toList ++ computeHits bullets enemies) := by
  refine ⟨(bulletStrike_iter kind H s hH N).1,
    (bulletStrike_iter kind H s hH N).2, ?_, fun h1 => ?_, ?_, ?_⟩
  · rw [strike_pass]
  · rw [strike_pass]
    simp [show ¬ (H - 1 ≤ 0) by omega]
  · rw [strike_pass]
    norm_num
  · intro bullets enemies b
    cases hfb : enemies.find? fun e =>
        decide (overlaps e.center e.half b.center b.half) <;>
      simp [computeHits, hfb]

theorem projectile_enemy_collisions_spec_witness :
    bulletStrike^[3] ([strikeEnemy .Grunt 2], 0) =
      ([], 0 + EnemyKind.Grunt.score_value) ∧
    (projectile_enemy_collisions [strikeBullet] [strikeEnemy .Grunt 2]
      5).bullets = [] := by
  have h := projectile_enemy_collisions_spec .Grunt 2 0 3 (by decide)
  have h2 := projectile_enemy_collisions_spec .Grunt 2 5 0 (by decide)
  exact ⟨h.2.1 (by decide), h2.2.2.1⟩

/--
C7: on collecting a power-up the power-up is removed and its effect
applied: Spread advances the weapon mode one step along
Single, Double, Spread3, Spread5, Laser and is a no-op on mode at
Laser; Rapid increments fire_rate_level, non-decreasing and saturating
at 5; Shield raises invulnerability to at least its fixed duration
without shortening a longer window; Health adds 1 health capped at
max_health; Invincibility raises invulnerability to at least a longer
fixed duration; and a pickup cue is emitted on every collection.
-/
theorem apply_powerup_spec (w : PlayerWeaponState) (stats : PlayerStats)
    (defense : PlayerDefense) (player_center player_half : Vec2q)
    (p : PowerUpEnt) (rest : List PowerUpEnt) :
    (apply_powerup .Spread w stats defense =
      (w.advance_mode, stats, defense, [.Pickup])) ∧
    ((w.mode = .Single → w.advance_mode.mode = .Double) ∧
     (w.mode = .Double → w.advance_mode.mode = .Spread3) ∧
     (w.mode = .Spread3 → w.advance_mode.mode = .Spread5) ∧
     (w.mode = .Spread5 → w.advance_mode.mode = .Laser) ∧
     (w.mode = .Laser → w.advance_mode.mode = .Laser)) ∧
    w.advance_mode.fire_rate_level = w.fire_rate_level ∧
    w.mode.rank ≤ w.advance_mode.mode.rank ∧
    (apply_powerup .Rapid w stats defense =
      (w.boost_fire_rate, stats, defense, [.Pickup])) ∧
    w.boost_fire_rate.fire_rate_level = min (w.fire_rate_level + 1) 5 ∧
    (w.fire_rate_level ≤ 5 →
      w.fire_rate_level ≤ w.boost_fire_rate.fire_rate_level) ∧
    w.boost_fire_rate.fire_rate_level ≤ 5 ∧
    (apply_powerup .Shield w stats defense =
      (w, stats, ⟨max defense.invulnerability SHIELD_INVULNERABILITY⟩,
       [.Pickup])) ∧
    defense.invulnerability ≤
      (apply_powerup .Shield w stats defense).2.2.1.invulnerability ∧
    SHIELD_INVULNERABILITY ≤
      (apply_powerup .Shield w stats defense).2.2.1.invulnerability ∧
    (apply_powerup .Health w stats defense).2.1.health =
      min (stats.health + 1) stats.max_health ∧
    (stats.health ≤ stats.max_health →
      stats.health ≤ (apply_powerup .Health w stats defense).2.1.health) ∧
    (apply_powerup .Health w stats defense).2.1.health ≤ stats.max_health ∧
    defense.invulnerability ≤
      (apply_powerup .Invincibility w stats defense).2.2.1.invulnerability ∧
    INVINCIBILITY_INVULNERABILITY ≤
      (apply_powerup .Invincibility w stats defense).2.2.1.invulnerability ∧
    SHIELD_INVULNERABILITY < INVINCIBILITY_INVULNERABILITY ∧
    (∀ kind : PowerUpKind,
      (apply_powerup kind w stats defense).2.2.2 = [.Pickup]) ∧
    (overlaps player_center player_half p.center p.half →
      (collect_powerups player_center player_half w stats defense
        (p :: rest)).survivors = rest ∧
      (collect_powerups player_center player_half w stats defense
        (p :: rest)).cues = [.Pickup]) := by
  refine ⟨rfl, ?_, rfl, ?_, rfl, rfl, ?_, ?_, rfl, ?_, ?_, rfl, ?_, ?_,
    ?_, ?_, ?_, ?_, ?_⟩
  · exact ⟨fun h => by simp [PlayerWeaponState.advance_mode, h],
      fun h => by simp [PlayerWeaponState.advance_mode, h],
      fun h => by simp [PlayerWeaponState.advance_mode, h],
      fun h => by simp [PlayerWeaponState.advance_mode, h],
      fun h => by simp [PlayerWeaponState.advance_mode, h]⟩
  · cases hm : w.mode <;>
      simp [PlayerWeaponState.advance_mode, hm, WeaponMode.rank]
  · intro h
    simp only [PlayerWeaponState.boost_fire_rate]
    omega
  · simp only [PlayerWeaponState.boost_fire_rate]
    omega
  · exact le_max_left _ _
  · exact le_max_right _ _
  · intro h
    simp only [apply_powerup]
    omega
  · simp only [apply_powerup]
    exact min_le_right _ _
  · exact le_max_left _ _
  · exact le_max_right _ _
  · norm_num [SHIELD_INVULNERABILITY, INVINCIBILITY_INVULNERABILITY,
      Rat.mkRat_eq_div]
  · intro kind
    cases kind <;> rfl
  · intro ho
    unfold collect_powerups
    rw [if_pos ho]
    exact ⟨rfl, by cases hk : p.kind <;> simp [apply_powerup, hk]⟩

theorem apply_powerup_spec_witness :
    (PlayerWeaponState.mk .Single 0).advance_mode.mode = .Double ∧
    (PlayerWeaponState.mk .Laser 2).advance_mode.mode = .Laser ∧
    (3 : Nat) ≤
      (PlayerWeaponState.mk .Single 3).boost_fire_rate.fire_rate_level ∧
    (2 : Nat) ≤ (apply_powerup .Health (PlayerWeaponState.mk .Single 0)
      ⟨2, 5, 3, 3⟩ ⟨0⟩).2.1.health ∧
    (collect_powerups ⟨0, 0⟩ ⟨0, 0⟩ (PlayerWeaponState.mk .Single 0)
      ⟨2, 5, 3, 3⟩ ⟨0⟩ [⟨3, .Spread, ⟨0, 0⟩, ⟨0, 0⟩⟩]).survivors = [] := by
  obtain ⟨-, hchain, -, -, -, -, -, -, -, -, -, -, hhealth, -, -, -, -, -,
icollect⟩ :=
    apply_powerup_spec (PlayerWeaponState.mk .Single 0) ⟨2, 5, 3, 3⟩
      ⟨0⟩ ⟨0, 0⟩ ⟨0, 0⟩ ⟨3, .Spread, ⟨0, 0⟩, ⟨0, 0⟩⟩ []
  obtain ⟨-, hchainL, -⟩ :=
    apply_powerup_spec (PlayerWeaponState.mk .Laser 2) ⟨2, 5, 3, 3⟩
      ⟨0⟩ ⟨0, 0⟩ ⟨0, 0⟩ ⟨3, .Spread, ⟨0, 0⟩, ⟨0, 0⟩⟩ []
  obtain ⟨-, -, -, -, -, -, hboost, -⟩ :=
    apply_powerup_spec (PlayerWeaponState.mk .Single 3) ⟨2, 5, 3, 3⟩
      ⟨0⟩ ⟨0, 0⟩ ⟨0, 0⟩ ⟨3, .Spread, ⟨0, 0⟩, ⟨0, 0⟩⟩ []
  exact ⟨hchain.1 rfl, hchainL.2.2.2.2 rfl, hboost (by decide),
    hhealth (by decide), (icollect (by simp [overlaps])).1⟩

/--
C8 counterexample: a malformed enemy-kind string in the storyboard
file is NOT fatal at the load site.  It produces the parse error
naming the accepted values, but `SpawnPlugin::build` catches every
load error — parse errors (including unknown kinds) exactly like I/O
errors — and falls back to the built-in default storyboard, so the run
proceeds the same way in both cases.
-/
theorem storyboard_malformed_kind_counterexample :
    deserialize_enemy_kind "frigate" =
      .error (unknown_variant_error "frigate" enemy_kind_variants) ∧
    load_storyboard_or_default
        (.error (.parseErr
          (unknown_variant_error "frigate" enemy_kind_variants))) =
      Storyboard.defaultStoryboard ∧
    load_storyboard_or_default
        (.error (.ioErr "No such file or directory")) =
      Storyboard.defaultStoryboard :=
  ⟨rfl, rfl, rfl⟩

/--
C8 (amended): storyboard loading is non-fatal in every failure case:
an I/O or parse failure of the storyboard file falls back to the
built-in single-level default storyboard and the run proceeds; a
malformed enemy or power-up kind string is a deserialization error
that names the accepted enumerated values, but it surfaces as an
ordinary parse failure and takes the same fallback rather than
aborting.
-/
theorem storyboard_load_fallback_spec (sb : Storyboard)
    (e : StoryboardLoadError) (value : String) :
    load_storyboard_or_default (.ok sb) = sb ∧
    load_storyboard_or_default (.error e) = Storyboard.defaultStoryboard ∧
    Storyboard.defaultStoryboard.level_count = 1 ∧
    deserialize_enemy_kind "grunt" = .ok .Grunt ∧
    deserialize_enemy_kind "Zig-Zag" = .ok .ZigZag ∧
    deserialize_power_up_kind "invincible" = .ok .Invincibility ∧
    (normalize_kind_string value ∉
        (["grunt", "sine", "zigzag", "tank", "chaser", "boss"] :
          List String) →
      deserialize_enemy_kind value =
        .error (unknown_variant_error value enemy_kind_variants)) ∧
    (normalize_kind_string value ∉
        (["spread", "rapid", "shield", "health", "invincibility",
          "invincible"] : List String) →
      deserialize_power_up_kind value =
        .error (unknown_variant_error value power_up_kind_variants)) := by
  refine ⟨rfl, rfl, rfl, rfl, rfl, rfl, fun h => ?_, fun h => ?_⟩
  · simp only [List.mem_cons, List.mem_singleton, not_or] at h
    obtain ⟨h1, h2, h3, h4, h5, h6⟩ := h
    simp [deserialize_enemy_kind, h1, h2, h3, h4, h5, h6]
  · simp only [List.mem_cons, List.mem_singleton, not_or] at h
    obtain ⟨h1, h2, h3, h4, h5, h6⟩ := h
    simp [deserialize_power_up_kind, h1, h2, h3, h4, h5, h6]

/-- Witness for the amended C8 at the concrete malformed input
"frigate" and a concrete parse error. -/
theorem storyboard_load_fallback_spec_witness :
    deserialize_enemy_kind "frigate" =
      .error (unknown_variant_error "frigate" enemy_kind_variants) ∧
    deserialize_power_up_kind "frigate" =
      .error (unknown_variant_error "frigate" power_up_kind_variants) := by
  have h := storyboard_load_fallback_spec Storyboard.defaultStoryboard
    (.parseErr "bad json") "frigate"
  exact ⟨h.2.2.2.2.2.2.1 (by decide), h.2.2.2.2.2.2.2 (by decide)⟩

end SForce